import Mathlib

/-!
Shallow embedding of `pyfbx_render.py`, a batch script driving Blender
(`bpy`) in background mode.  The script's own behaviour is a straight-line
sequence of host-API calls plus command-line flag handling; we model the
scene state the script reads and writes, and record every host-API call as
an `Event` in a trace, so that both the final state and the order of calls
can be reasoned about.

Host float values (camera angles produced by `math.radians`, the camera
lens angle and its scaling by `0.95`) are tracked symbolically by `HF`:
the script never inspects these values, it only stores, scales and
restores them, so symbolic tracking is faithful.
-/

namespace PyFbxRender

/-- Symbolic host float values: `math.radians d`, the host default camera
lens angle, a literal, or a product with a literal factor. -/
inductive HF
  | lit (val : ℚ)
  | radiansOf (degrees : ℚ)
  | camAngleDefault
  | mul (a : HF) (factor : ℚ)
deriving DecidableEq

/-- `render.image_settings`. -/
structure ImageSettings where
  color_mode : String
deriving DecidableEq

/-- `scene.render` settings touched by the script. -/
structure RenderSettings where
  engine : String
  resolution_percentage : ℚ
  filepath : String
  image_settings : ImageSettings
  resolution_x : Int
  resolution_y : Int
deriving DecidableEq

/-- `scene.cycles` settings touched by the script. -/
structure CyclesSettings where
  samples : Int
  film_transparent : Bool
deriving DecidableEq

/-- The world built by `render_hdr_set`: node-tree facts the script sets
(Background strength, environment texture node, the Color link) and the
world cycles settings. -/
structure WorldState where
  use_nodes : Bool
  bg_strength : ℚ
  env_image : Option String
  env_projection : String
  bg_color_linked_from_env : Bool
  sample_as_light : Bool
  sample_map_resolution : Int
  visibility_camera : Bool
deriving DecidableEq

/-- Camera data and object created by `render` (angle lives on the camera
data block, rotation on the camera object). -/
structure CamState where
  angle : HF
  rotation_euler : HF × HF × HF
  framed : Bool
deriving DecidableEq

/-- The scene state the script reads and writes. -/
structure St where
  scene_camera : Option String
  scene_objects : List String
  render : RenderSettings
  cycles : CyclesSettings
  world : Option WorldState
  cam : Option CamState
  fbx_imported : Option String
deriving DecidableEq

/-- One host-API call issued by the script. -/
inductive Event
  | setSceneCameraNone
  | unlinkObject (name : String)
  | setEngine (engine : String)
  | setResolutionPercentage (val : ℚ)
  | setRenderFilepath (path : String)
  | setSamples (n : Int)
  | setColorMode (mode : String)
  | setFilmTransparent (b : Bool)
  | setResolutionX (n : Int)
  | setResolutionY (n : Int)
  | newCameraData (name : String)
  | newObject (name : String)
  | linkObject (name : String)
  | setSceneCamera (name : String)
  | setRotationEuler (x y z : ℚ)
  | importFbx (axis_forward axis_up : String) (global_scale : ℚ)
      (filepath : String) (use_alpha_decals : Bool) (decal_offset : ℚ)
  | scaleAngle (factor : ℚ)
  | cameraToViewSelected
  | restoreAngle
  | newWorld (name : String)
  | setSceneWorld
  | setUseNodes (b : Bool)
  | setBgStrength (val : ℚ)
  | newNode (ty : String)
  | loadImage (path : String)
  | setProjection (mode : String)
  | linkNodes (fromNode fromSocket toNode toSocket : String)
  | setSampleAsLight (b : Bool)
  | setSampleMapResolution (n : Int)
  | setWorldVisibilityCamera (b : Bool)
  | openFile (path : String)
  | printErr (path : String)
  | saveMainfile (path : String)
  | renderOp (write_still : Bool)
deriving DecidableEq

/-- A Python exception escaping `render`. -/
inductive PyErr
  | unboundLocal (name : String)
deriving DecidableEq

/-- Python truthiness of an optional string argument
(`None` and `""` are falsy). -/
def truthyS : Option String → Bool
  | none => false
  | some s => s != ""

/-- Python truthiness of an optional int argument
(`None` and `0` are falsy). -/
def truthyI : Option Int → Bool
  | none => false
  | some n => n != 0

/-- Host environment the script runs in: the factory-startup scene contents
and settings, and whether `open(path, "w")` succeeds for a given path. -/
structure Env where
  init_camera : Option String
  init_objects : List String
  init_render : RenderSettings
  init_cycles : CyclesSettings
  init_world : Option WorldState
  openOk : String → Bool

/-- The scene state at script start. -/
def Env.initSt (env : Env) : St :=
  { scene_camera := env.init_camera
    scene_objects := env.init_objects
    render := env.init_render
    cycles := env.init_cycles
    world := env.init_world
    cam := none
    fbx_imported := none }

/-- Events of the clearing step (`scene.camera = None`; unlink each
existing object). -/
def clearEvents (objs : List String) : List Event :=
  Event.setSceneCameraNone :: objs.map Event.unlinkObject

/-- `scene.camera = None; for obj in scene.objects: scene.objects.unlink(obj)` -/
def clearPhase (s : St) : St × List Event :=
  ({ s with scene_camera := none, scene_objects := [] },
   clearEvents s.scene_objects)

/-- Events of the render/cycles configuration step, in source order. -/
def configEvents (render_path : Option String)
    (samples size_x size_y : Option Int) : List Event :=
  [Event.setEngine "CYCLES", Event.setResolutionPercentage 100]
    ++ (if truthyS render_path then
          [Event.setRenderFilepath (render_path.getD "")] else [])
    ++ (if truthyI samples then [Event.setSamples (samples.getD 0)] else [])
    ++ [Event.setColorMode "RGBA", Event.setFilmTransparent true]
    ++ (if truthyI size_x then [Event.setResolutionX (size_x.getD 0)] else [])
    ++ (if truthyI size_y then [Event.setResolutionY (size_y.getD 0)] else [])

/-- Lines 87-103 of the source: engine, resolution percentage, optional
filepath/samples, color mode, film transparency, optional resolution. -/
def configPhase (render_path : Option String)
    (samples size_x size_y : Option Int) (s : St) : St × List Event :=
  let r1 := { s.render with engine := "CYCLES", resolution_percentage := 100 }
  let r2 := if truthyS render_path then
              { r1 with filepath := render_path.getD "" } else r1
  let c1 := if truthyI samples then
              { s.cycles with samples := samples.getD 0 } else s.cycles
  let r3 := { r2 with image_settings := { color_mode := "RGBA" } }
  let c2 := { c1 with film_transparent := true }
  let r4 := if truthyI size_x then
              { r3 with resolution_x := size_x.getD 0 } else r3
  let r5 := if truthyI size_y then
              { r4 with resolution_y := size_y.getD 0 } else r4
  ({ s with render := r5, cycles := c2 },
   configEvents render_path samples size_x size_y)

/-- Events of the camera creation step. -/
def cameraEvents : List Event :=
  [Event.newCameraData "MyCam", Event.newObject "MyCam",
   Event.linkObject "MyCam", Event.setSceneCamera "MyCam",
   Event.setRotationEuler 60 0 170]

/-- Lines 106-112: create the camera data and object, link it, make it the
active camera, and set the hard-coded rotation
`radians(60.0), radians(0.0), radians(170.0)`. -/
def cameraPhase (s : St) : St × List Event :=
  let cam : CamState :=
    { angle := HF.camAngleDefault
      rotation_euler := (HF.radiansOf 60, HF.radiansOf 0, HF.radiansOf 170)
      framed := false }
  ({ s with scene_objects := s.scene_objects ++ ["MyCam"]
            scene_camera := some "MyCam"
            cam := some cam },
   cameraEvents)

/-- Events of the FBX import step. -/
def importEvents (fbx_path : String) : List Event :=
  [Event.importFbx "Y" "Z" 0.001 fbx_path true 0.1]

/-- Lines 115-120: `bpy.ops.import_scene.fbx(...)` with fixed parameters.
The imported objects themselves live host-side; we record the call and the
filepath. -/
def importPhase (fbx_path : String) (s : St) : St × List Event :=
  ({ s with fbx_imported := some fbx_path }, importEvents fbx_path)

/-- Events of the framing step. -/
def frameEvents : List Event :=
  [Event.scaleAngle 0.95, Event.cameraToViewSelected, Event.restoreAngle]

/-- Lines 122-126: save `cam_data.angle`, scale it by 0.95, run
`camera_to_view_selected` (which moves the camera object, framing the
selection, without touching the lens angle), then restore the saved angle. -/
def framePhase (s : St) : St × List Event :=
  match s.cam with
  | none => (s, frameEvents)
  | some c =>
    let saved := c.angle
    let c1 := { c with angle := HF.mul c.angle 0.95 }
    let c2 := { c1 with framed := true }
    let c3 := { c2 with angle := saved }
    ({ s with cam := some c3 }, frameEvents)

/-- A freshly created world, before the script configures it
(host defaults). -/
def worldNew : WorldState :=
  { use_nodes := false
    bg_strength := 1
    env_image := none
    env_projection := "EQUIRECTANGULAR"
    bg_color_linked_from_env := false
    sample_as_light := true
    sample_map_resolution := 256
    visibility_camera := true }

/-- Events of `render_hdr_set`, in source order. -/
def hdrEvents (hdr_path : String) : List Event :=
  [Event.newWorld "World", Event.setSceneWorld, Event.setUseNodes true,
   Event.setBgStrength 1.5, Event.newNode "ShaderNodeTexEnvironment",
   Event.loadImage hdr_path, Event.setProjection "MIRROR_BALL",
   Event.linkNodes "Environment Texture" "Color" "Background" "Color",
   Event.setSampleAsLight true, Event.setSampleMapResolution 512,
   Event.setWorldVisibilityCamera false]

/-- `render_hdr_set(scene, hdr_path)` (lines 51-72): new world, enable
nodes, Background strength 1.5, new Environment Texture node loading the
HDR image with MIRROR_BALL projection, link its Color output to the
Background Color input, world cycles sampling settings, camera
invisibility. -/
def render_hdr_set (hdr_path : String) (s : St) : St × List Event :=
  let w1 := { worldNew with use_nodes := true }
  let w2 := { w1 with bg_strength := 1.5 }
  let w3 := { w2 with env_image := some hdr_path
                      env_projection := "MIRROR_BALL" }
  let w4 := { w3 with bg_color_linked_from_env := true }
  let w5 := { w4 with sample_as_light := true, sample_map_resolution := 512 }
  let w6 := { w5 with visibility_camera := false }
  ({ s with world := some w6 }, hdrEvents hdr_path)

/-- Lines 128-129: `if hdr_path: render_hdr_set(scene, hdr_path)`. -/
def hdrPhase (hdr_path : Option String) (s : St) : St × List Event :=
  if truthyS hdr_path then render_hdr_set (hdr_path.getD "") s else (s, [])

/-- Events of the save step: try to open the path; on success save the
mainfile, on failure print the error (the traceback goes with it). -/
def saveEvents (openOk : String → Bool) (save_path : Option String) :
    List Event :=
  if truthyS save_path then
    let p := save_path.getD ""
    if openOk p then [Event.openFile p, Event.saveMainfile p]
    else [Event.openFile p, Event.printErr p]
  else []

/-- Lines 133-145: `if save_path:` open the file for writing; on success
`ok = True` and `bpy.ops.wm.save_as_mainfile` runs; on failure the error is
printed and the subsequent `if ok:` raises `UnboundLocalError` because `ok`
was never assigned. -/
def savePhase (openOk : String → Bool) (save_path : Option String)
    (s : St) : St × List Event × Option PyErr :=
  (s, saveEvents openOk save_path,
   if truthyS save_path && !(openOk (save_path.getD "")) then
     some (PyErr.unboundLocal "ok")
   else none)

/-- Events of the final render step. -/
def renderEvents (render_path : Option String) : List Event :=
  if truthyS render_path then [Event.renderOp true] else []

/-- Result of a run of `render`: final scene state, the trace of host-API
calls, and the exception that escaped, if any. -/
structure RunResult where
  state : St
  trace : List Event
  raised : Option PyErr
deriving DecidableEq

/-- `render(fbx_path, hdr_path, size_x, size_y, samples, save_path,
render_path)` (lines 75-148), as the composition of its phases.  When the
save step raises, execution aborts there and the final render step
(lines 147-148) never runs. -/
def render (env : Env) (fbx_path : String) (hdr_path : Option String)
    (size_x size_y samples : Option Int)
    (save_path render_path : Option String) : RunResult :=
  let p1 := clearPhase env.initSt
  let p2 := configPhase render_path samples size_x size_y p1.1
  let p3 := cameraPhase p2.1
  let p4 := importPhase fbx_path p3.1
  let p5 := framePhase p4.1
  let p6 := hdrPhase hdr_path p5.1
  let p7 := savePhase env.openOk save_path p6.1
  { state := p7.1
    trace := p1.2 ++ p2.2 ++ p3.2 ++ p4.2 ++ p5.2 ++ p6.2 ++ p7.2.1
      ++ (if p7.2.2.isSome then [] else renderEvents render_path)
    raised := p7.2.2 }

/-- Parsed command-line arguments (argparse defaults every flag to None). -/
structure Args where
  fbx_path : Option String
  hdr_path : Option String
  save_path : Option String
  render_path : Option String
  size_x : Option Int
  size_y : Option Int
  samples : Option Int

/-- Outcome of `main`: either help text was printed and the function
returned early, or `render` ran. -/
inductive MainResult
  | printedHelp
  | ran (r : RunResult)

/-- `main()` (lines 151-202): with an empty argument list after `--`, or a
falsy `--fbx`, print the help and return; otherwise run `render` on the
parsed arguments. -/
def main (env : Env) (argv : List String) (args : Args) : MainResult :=
  if argv = [] then MainResult.printedHelp
  else if !(truthyS args.fbx_path) then MainResult.printedHelp
  else MainResult.ran (render env (args.fbx_path.getD "") args.hdr_path
    args.size_x args.size_y args.samples args.save_path args.render_path)

/-- Recognises the FBX-import host call. -/
def isImportEvent : Event → Bool
  | Event.importFbx _ _ _ _ _ _ => true
  | _ => false

/-- A concrete factory-startup environment in which every file open
succeeds. -/
def env0 : Env :=
  { init_camera := some "Camera"
    init_objects := ["Cube", "Light", "Camera"]
    init_render :=
      { engine := "BLENDER_EEVEE"
        resolution_percentage := 50
        filepath := "/tmp/"
        image_settings := { color_mode := "RGB" }
        resolution_x := 1920
        resolution_y := 1080 }
    init_cycles := { samples := 128, film_transparent := false }
    init_world := none
    openOk := fun _ => true }

/-- The same environment, except the save path cannot be opened for
writing. -/
def envFail : Env :=
  { env0 with openOk := fun _ => false }

/- ### Helper lemmas -/

theorem mem_ite_nil_iff {α : Type} (x : α) (c : Prop) [Decidable c]
    (l : List α) : (x ∈ if c then l else ([] : List α)) ↔ c ∧ x ∈ l := by
  split_ifs with h <;> simp [h]

theorem filter_isImport_map_unlink (l : List String) :
    (l.map Event.unlinkObject).filter isImportEvent = [] := by
  induction l with
  | nil => rfl
  | cons a l ih => simp [List.filter, isImportEvent, ih]

/-- The full trace of `render`, decomposed into the traces of its phases,
for any combination of flags and any outcome of the file open. -/
theorem render_trace_eq (env : Env) (fbx_path : String)
    (hdr_path : Option String) (size_x size_y samples : Option Int)
    (save_path render_path : Option String) :
    (render env fbx_path hdr_path size_x size_y samples
        save_path render_path).trace
      = clearEvents env.init_objects
        ++ configEvents render_path samples size_x size_y
        ++ cameraEvents
        ++ importEvents fbx_path
        ++ frameEvents
        ++ (if truthyS hdr_path then hdrEvents (hdr_path.getD "") else [])
        ++ saveEvents env.openOk save_path
        ++ (if truthyS save_path && !(env.openOk (save_path.getD "")) then []
            else renderEvents render_path) := by
  cases hh : truthyS hdr_path <;> cases hs : truthyS save_path <;>
    cases ho : env.openOk (save_path.getD "") <;>
      simp [render, clearPhase, configPhase, cameraPhase, importPhase,
        framePhase, hdrPhase, render_hdr_set, savePhase, Env.initSt,
        hh, hs, ho]

/-- The final scene state of `render`, decomposed into its phases (the save
and render steps do not modify the scene state: they write external
files). -/
theorem render_state_eq (env : Env) (fbx_path : String)
    (hdr_path : Option String) (size_x size_y samples : Option Int)
    (save_path render_path : Option String) :
    (render env fbx_path hdr_path size_x size_y samples
        save_path render_path).state
      = (hdrPhase hdr_path (framePhase (importPhase fbx_path
          (cameraPhase (configPhase render_path samples size_x size_y
            (clearPhase env.initSt).1).1).1).1).1).1 := by
  simp [render, savePhase]

/-- C1: on every invocation of `render`, the host-API calls happen in one
fixed order: clear the scene (unset the camera, unlink every existing
object), configure the render engine and settings, create and link the
camera, import the FBX file, frame the camera to the selection, then (if
an HDR path is given) build the world lighting, then (if a save path is
given) save the scene file, and finally (if a render path is given) render
the image.  (Stated under the hypothesis that, when a save path is given,
opening it succeeds; see the C8 theorem for the failure behaviour.) -/
theorem render_steps_fixed_order (env : Env) (fbx_path : String)
    (hdr_path : Option String) (size_x size_y samples : Option Int)
    (save_path render_path : Option String)
    (hopen : truthyS save_path = true →
      env.openOk (save_path.getD "") = true) :
    (render env fbx_path hdr_path size_x size_y samples
        save_path render_path).trace
      = clearEvents env.init_objects
        ++ configEvents render_path samples size_x size_y
        ++ cameraEvents
        ++ importEvents fbx_path
        ++ frameEvents
        ++ (if truthyS hdr_path then hdrEvents (hdr_path.getD "") else [])
        ++ (if truthyS save_path then
              [Event.openFile (save_path.getD ""),
               Event.saveMainfile (save_path.getD "")]
            else [])
        ++ renderEvents render_path := by
  rw [render_trace_eq]
  cases hs : truthyS save_path with
  | false => simp [saveEvents, hs]
  | true => simp [saveEvents, hs, hopen hs]

/-- Witness for C1 at a concrete invocation with every flag supplied. -/
theorem render_steps_fixed_order_witness :
    (truthyS (some "/tmp/out.blend") = true →
      env0.openOk ((some "/tmp/out.blend" : Option String).getD "") = true)
    ∧ (render env0 "a.fbx" (some "b.hdr") (some 800) (some 800) (some 80)
        (some "/tmp/out.blend") (some "/tmp/out.png")).trace
      = clearEvents env0.init_objects
        ++ configEvents (some "/tmp/out.png") (some 80) (some 800) (some 800)
        ++ cameraEvents
        ++ importEvents "a.fbx"
        ++ frameEvents
        ++ (if truthyS (some "b.hdr") then
              hdrEvents ((some "b.hdr" : Option String).getD "") else [])
        ++ (if truthyS (some "/tmp/out.blend") then
              [Event.openFile ((some "/tmp/out.blend" : Option String).getD ""),
               Event.saveMainfile
                 ((some "/tmp/out.blend" : Option String).getD "")]
            else [])
        ++ renderEvents (some "/tmp/out.png") :=
  ⟨fun _ => rfl,
   render_steps_fixed_order env0 "a.fbx" (some "b.hdr") (some 800) (some 800)
     (some 80) (some "/tmp/out.blend") (some "/tmp/out.png") (fun _ => rfl)⟩

theorem mem_ite_iff {α : Type} (x : α) (c : Prop) [Decidable c]
    (l1 l2 : List α) :
    (x ∈ if c then l1 else l2) ↔ (c ∧ x ∈ l1) ∨ (¬c ∧ x ∈ l2) := by
  split_ifs with h <;> simp [h]

theorem filter_ite {α : Type} (p : α → Bool) (c : Prop) [Decidable c]
    (l1 l2 : List α) :
    List.filter p (if c then l1 else l2)
      = if c then List.filter p l1 else List.filter p l2 := by
  split_ifs <;> rfl

theorem framePhase_render_eq (s : St) : (framePhase s).1.render = s.render := by
  cases hc : s.cam <;> simp [framePhase, hc]

theorem framePhase_cycles_eq (s : St) : (framePhase s).1.cycles = s.cycles := by
  cases hc : s.cam <;> simp [framePhase, hc]

theorem framePhase_angle_eq (s : St) :
    Option.map CamState.angle (framePhase s).1.cam
      = Option.map CamState.angle s.cam := by
  cases hc : s.cam <;> simp [framePhase, hc]

theorem hdrPhase_render_eq (hdr_path : Option String) (s : St) :
    (hdrPhase hdr_path s).1.render = s.render := by
  cases hh : truthyS hdr_path <;> simp [hdrPhase, render_hdr_set, hh]

theorem hdrPhase_cycles_eq (hdr_path : Option String) (s : St) :
    (hdrPhase hdr_path s).1.cycles = s.cycles := by
  cases hh : truthyS hdr_path <;> simp [hdrPhase, render_hdr_set, hh]

theorem hdrPhase_cam_eq (hdr_path : Option String) (s : St) :
    (hdrPhase hdr_path s).1.cam = s.cam := by
  cases hh : truthyS hdr_path <;> simp [hdrPhase, render_hdr_set, hh]

theorem configPhase_image_settings (render_path : Option String)
    (samples size_x size_y : Option Int) (s : St) :
    (configPhase render_path samples size_x size_y s).1.render.image_settings
      = { color_mode := "RGBA" } := by
  cases hr : truthyS render_path <;> cases hx : truthyI size_x <;>
    cases hy : truthyI size_y <;> simp [configPhase, hr, hx, hy]

theorem configPhase_film_transparent (render_path : Option String)
    (samples size_x size_y : Option Int) (s : St) :
    (configPhase render_path samples size_x size_y s).1.cycles.film_transparent
      = true := by
  cases hsam : truthyI samples <;> simp [configPhase, hsam]

/-- `saveMainfile` occurs in the trace exactly when a truthy save path was
given, opening it succeeded, and the event carries that path. -/
theorem saveMainfile_mem_trace_iff (env : Env) (fbx_path : String)
    (hdr_path : Option String) (size_x size_y samples : Option Int)
    (save_path render_path : Option String) (p : String) :
    Event.saveMainfile p ∈ (render env fbx_path hdr_path size_x size_y
        samples save_path render_path).trace
      ↔ truthyS save_path = true ∧ env.openOk (save_path.getD "") = true
        ∧ p = save_path.getD "" := by
  rw [render_trace_eq]
  cases hs : truthyS save_path <;> cases ho : env.openOk (save_path.getD "")
    <;> simp [clearEvents, configEvents, cameraEvents, importEvents,
      frameEvents, hdrEvents, saveEvents, renderEvents,
      mem_ite_iff, List.mem_map, hs, ho]

/-- `renderOp` occurs in the trace exactly when a truthy render path was
given and the save step did not abort the run. -/
theorem renderOp_mem_trace_iff (env : Env) (fbx_path : String)
    (hdr_path : Option String) (size_x size_y samples : Option Int)
    (save_path render_path : Option String) :
    Event.renderOp true ∈ (render env fbx_path hdr_path size_x size_y
        samples save_path render_path).trace
      ↔ truthyS render_path = true
        ∧ (truthyS save_path && !(env.openOk (save_path.getD ""))) = false := by
  rw [render_trace_eq]
  cases hs : truthyS save_path <;> cases ho : env.openOk (save_path.getD "")
    <;> simp [clearEvents, configEvents, cameraEvents, importEvents,
      frameEvents, hdrEvents, saveEvents, renderEvents,
      mem_ite_iff, List.mem_map, hs, ho]

/-- C2: a run of `main` with valid flags saves a scene file exactly when
the `--save` flag is supplied, and issues the host render call
(`write_still`) exactly when the `--render` flag is supplied; the run
completes without raising. -/
theorem main_save_render_iff_flags (env : Env) (argv : List String)
    (args : Args)
    (hargv : argv ≠ [])
    (hfbx : truthyS args.fbx_path = true)
    (hsave : args.save_path ≠ some "")
    (hrender : args.render_path ≠ some "")
    (hopen : truthyS args.save_path = true →
      env.openOk (args.save_path.getD "") = true) :
    ∃ r, main env argv args = MainResult.ran r ∧ r.raised = none
      ∧ (Event.saveMainfile (args.save_path.getD "") ∈ r.trace
          ↔ args.save_path.isSome = true)
      ∧ (Event.renderOp true ∈ r.trace ↔ args.render_path.isSome = true) := by
  refine ⟨render env (args.fbx_path.getD "") args.hdr_path args.size_x
    args.size_y args.samples args.save_path args.render_path, ?_, ?_, ?_, ?_⟩
  · simp [main, hargv, hfbx]
  · cases hs : truthyS args.save_path with
    | false => simp [render, savePhase, hs]
    | true => simp [render, savePhase, hs, hopen hs]
  · rw [saveMainfile_mem_trace_iff]
    cases hsp : args.save_path with
    | none => simp [truthyS]
    | some p =>
      have hp : p ≠ "" := fun h => hsave (by rw [hsp, h])
      have ht : truthyS (some p) = true := by simp [truthyS, hp]
      have ho := hopen (by rw [hsp]; exact ht)
      rw [hsp] at ho
      simp only [Option.getD_some] at ho
      simp [ht, ho]
  · rw [renderOp_mem_trace_iff]
    have hab : (truthyS args.save_path
        && !(env.openOk (args.save_path.getD ""))) = false := by
      cases hs : truthyS args.save_path with
      | false => simp
      | true => simp [hopen hs]
    rw [hab]
    cases hrp : args.render_path with
    | none => simp [truthyS]
    | some p =>
      have hp : p ≠ "" := fun h => hrender (by rw [hrp, h])
      simp [truthyS, hp]

/-- Witness for C2 at a concrete invocation supplying both `--save` and
`--render`. -/
theorem main_save_render_iff_flags_witness :
    (["--fbx=a.fbx"] : List String) ≠ []
    ∧ ∃ r, main env0 ["--fbx=a.fbx"]
        { fbx_path := some "a.fbx", hdr_path := none
          save_path := some "/tmp/o.blend", render_path := some "/tmp/o.png"
          size_x := none, size_y := none, samples := none }
        = MainResult.ran r ∧ r.raised = none
      ∧ (Event.saveMainfile ((some "/tmp/o.blend" : Option String).getD "")
          ∈ r.trace ↔ (some "/tmp/o.blend" : Option String).isSome = true)
      ∧ (Event.renderOp true ∈ r.trace
          ↔ (some "/tmp/o.png" : Option String).isSome = true) :=
  ⟨by decide,
   main_save_render_iff_flags env0 ["--fbx=a.fbx"]
     { fbx_path := some "a.fbx", hdr_path := none
       save_path := some "/tmp/o.blend", render_path := some "/tmp/o.png"
       size_x := none, size_y := none, samples := none }
     (by decide) (by decide) (by decide) (by decide) (fun _ => rfl)⟩

/-- C3: whenever an HDR path is supplied, the final world has Background
strength 1.5 and cycles `sample_map_resolution` 512 with `sample_as_light`
enabled. -/
theorem hdr_sets_strength_and_sampling (env : Env) (fbx_path : String)
    (hdr_path : Option String) (size_x size_y samples : Option Int)
    (save_path render_path : Option String)
    (hhdr : truthyS hdr_path = true) :
    ∃ w, (render env fbx_path hdr_path size_x size_y samples save_path
        render_path).state.world = some w
      ∧ w.bg_strength = 1.5 ∧ w.sample_map_resolution = 512
      ∧ w.sample_as_light = true := by
  rw [render_state_eq]
  simp [hdrPhase, render_hdr_set, hhdr]

/-- Witness for C3 with a concrete HDR path. -/
theorem hdr_sets_strength_and_sampling_witness :
    truthyS (some "b.hdr") = true
    ∧ ∃ w, (render env0 "a.fbx" (some "b.hdr") none none none none
        none).state.world = some w
      ∧ w.bg_strength = 1.5 ∧ w.sample_map_resolution = 512
      ∧ w.sample_as_light = true :=
  ⟨by decide,
   hdr_sets_strength_and_sampling env0 "a.fbx" (some "b.hdr") none none none
     none none (by decide)⟩

/-- C4: on every invocation of `render`, regardless of flags, the image
color mode is set to RGBA and cycles `film_transparent` to `True`. -/
theorem alpha_settings_unconditional (env : Env) (fbx_path : String)
    (hdr_path : Option String) (size_x size_y samples : Option Int)
    (save_path render_path : Option String) :
    (render env fbx_path hdr_path size_x size_y samples save_path
        render_path).state.render.image_settings.color_mode = "RGBA"
    ∧ (render env fbx_path hdr_path size_x size_y samples save_path
        render_path).state.cycles.film_transparent = true := by
  rw [render_state_eq]
  constructor
  · rw [hdrPhase_render_eq, framePhase_render_eq]
    simp [importPhase, cameraPhase, configPhase_image_settings]
  · rw [hdrPhase_cycles_eq, framePhase_cycles_eq]
    simp [importPhase, cameraPhase, configPhase_film_transparent]

/-- C5: on every invocation of `render`, the camera object's
`rotation_euler` is the fixed literal
`(radians 60.0, radians 0.0, radians 170.0)`, independent of every flag. -/
theorem camera_rotation_hardcoded (env : Env) (fbx_path : String)
    (hdr_path : Option String) (size_x size_y samples : Option Int)
    (save_path render_path : Option String) :
    ∃ c, (render env fbx_path hdr_path size_x size_y samples save_path
        render_path).state.cam = some c
      ∧ c.rotation_euler
          = (HF.radiansOf 60, HF.radiansOf 0, HF.radiansOf 170) := by
  rw [render_state_eq, hdrPhase_cam_eq]
  simp [framePhase, importPhase, cameraPhase]

/-- C6: every run of `render` calls the FBX importer exactly once, with
`axis_forward 'Y'`, `axis_up 'Z'`, `global_scale 0.001`, the `--fbx`
argument as filepath, `use_alpha_decals True` and `decal_offset 0.1`. -/
theorem fbx_import_called_once (env : Env) (fbx_path : String)
    (hdr_path : Option String) (size_x size_y samples : Option Int)
    (save_path render_path : Option String) :
    ((render env fbx_path hdr_path size_x size_y samples save_path
        render_path).trace.filter isImportEvent)
      = [Event.importFbx "Y" "Z" 0.001 fbx_path true 0.1] := by
  rw [render_trace_eq]
  simp [List.filter_append, filter_ite, clearEvents, configEvents,
    cameraEvents, importEvents, frameEvents, hdrEvents, saveEvents,
    renderEvents, filter_isImport_map_unlink, isImportEvent, List.filter]

/-- C7: whenever an HDR path is supplied, the script creates a fresh world
with nodes enabled, loads the HDR image into a new Environment Texture
node with MIRROR_BALL projection, links its Color output to the Background
node's Color input, and makes the world invisible to the camera. -/
theorem hdr_world_node_setup (env : Env) (fbx_path : String)
    (hdr_path : Option String) (size_x size_y samples : Option Int)
    (save_path render_path : Option String)
    (hhdr : truthyS hdr_path = true) :
    Event.newWorld "World" ∈ (render env fbx_path hdr_path size_x size_y
        samples save_path render_path).trace
    ∧ Event.newNode "ShaderNodeTexEnvironment" ∈ (render env fbx_path
        hdr_path size_x size_y samples save_path render_path).trace
    ∧ Event.loadImage (hdr_path.getD "") ∈ (render env fbx_path hdr_path
        size_x size_y samples save_path render_path).trace
    ∧ Event.linkNodes "Environment Texture" "Color" "Background" "Color"
        ∈ (render env fbx_path hdr_path size_x size_y samples save_path
            render_path).trace
    ∧ ∃ w, (render env fbx_path hdr_path size_x size_y samples save_path
        render_path).state.world = some w
      ∧ w.use_nodes = true
      ∧ w.env_image = some (hdr_path.getD "")
      ∧ w.env_projection = "MIRROR_BALL"
      ∧ w.bg_color_linked_from_env = true
      ∧ w.visibility_camera = false := by
  refine ⟨?_, ?_, ?_, ?_, ?_⟩
  · rw [render_trace_eq]
    simp [clearEvents, configEvents, cameraEvents, importEvents, frameEvents,
      hdrEvents, saveEvents, renderEvents, mem_ite_iff, hhdr]
  · rw [render_trace_eq]
    simp [clearEvents, configEvents, cameraEvents, importEvents, frameEvents,
      hdrEvents, saveEvents, renderEvents, mem_ite_iff, hhdr]
  · rw [render_trace_eq]
    simp [clearEvents, configEvents, cameraEvents, importEvents, frameEvents,
      hdrEvents, saveEvents, renderEvents, mem_ite_iff, hhdr]
  · rw [render_trace_eq]
    simp [clearEvents, configEvents, cameraEvents, importEvents, frameEvents,
      hdrEvents, saveEvents, renderEvents, mem_ite_iff, hhdr]
  · rw [render_state_eq]
    simp [hdrPhase, render_hdr_set, hhdr]

/-- Witness for C7 with a concrete HDR path. -/
theorem hdr_world_node_setup_witness :
    truthyS (some "b.hdr") = true
    ∧ (Event.newWorld "World" ∈ (render env0 "a.fbx" (some "b.hdr") none
          none none none none).trace
      ∧ Event.newNode "ShaderNodeTexEnvironment" ∈ (render env0 "a.fbx"
          (some "b.hdr") none none none none none).trace
      ∧ Event.loadImage ((some "b.hdr" : Option String).getD "")
          ∈ (render env0 "a.fbx" (some "b.hdr") none none none none
              none).trace
      ∧ Event.linkNodes "Environment Texture" "Color" "Background" "Color"
          ∈ (render env0 "a.fbx" (some "b.hdr") none none none none
              none).trace
      ∧ ∃ w, (render env0 "a.fbx" (some "b.hdr") none none none none
            none).state.world = some w
        ∧ w.use_nodes = true
        ∧ w.env_image = some ((some "b.hdr" : Option String).getD "")
        ∧ w.env_projection = "MIRROR_BALL"
        ∧ w.bg_color_linked_from_env = true
        ∧ w.visibility_camera = false) :=
  ⟨by decide,
   hdr_world_node_setup env0 "a.fbx" (some "b.hdr") none none none none none
     (by decide)⟩

/-- C8: if a save path is given but opening it for writing fails, the run
prints the error and then aborts with an unbound-local error on `ok`:
no `save_as_mainfile` call and no render call happens. -/
theorem save_open_failure_aborts (env : Env) (fbx_path : String)
    (hdr_path : Option String) (size_x size_y samples : Option Int)
    (save_path render_path : Option String)
    (hsave : truthyS save_path = true)
    (hfail : env.openOk (save_path.getD "") = false) :
    (render env fbx_path hdr_path size_x size_y samples save_path
        render_path).raised = some (PyErr.unboundLocal "ok")
    ∧ Event.printErr (save_path.getD "") ∈ (render env fbx_path hdr_path
        size_x size_y samples save_path render_path).trace
    ∧ (∀ p, Event.saveMainfile p ∉ (render env fbx_path hdr_path size_x
        size_y samples save_path render_path).trace)
    ∧ Event.renderOp true ∉ (render env fbx_path hdr_path size_x size_y
        samples save_path render_path).trace := by
  refine ⟨?_, ?_, ?_, ?_⟩
  · simp [render, savePhase, hsave, hfail]
  · rw [render_trace_eq]
    simp [clearEvents, configEvents, cameraEvents, importEvents, frameEvents,
      hdrEvents, saveEvents, renderEvents, mem_ite_iff, hsave, hfail]
  · intro p
    rw [saveMainfile_mem_trace_iff]
    simp [hfail]
  · rw [renderOp_mem_trace_iff]
    simp [hsave, hfail]

/-- Witness for C8: a concrete run whose save path cannot be opened. -/
theorem save_open_failure_aborts_witness :
    truthyS (some "/tmp/o.blend") = true
    ∧ envFail.openOk ((some "/tmp/o.blend" : Option String).getD "") = false
    ∧ ((render envFail "a.fbx" none none none none (some "/tmp/o.blend")
          (some "/tmp/o.png")).raised = some (PyErr.unboundLocal "ok")
      ∧ Event.printErr ((some "/tmp/o.blend" : Option String).getD "")
          ∈ (render envFail "a.fbx" none none none none
              (some "/tmp/o.blend") (some "/tmp/o.png")).trace
      ∧ (∀ p, Event.saveMainfile p ∉ (render envFail "a.fbx" none none none
          none (some "/tmp/o.blend") (some "/tmp/o.png")).trace)
      ∧ Event.renderOp true ∉ (render envFail "a.fbx" none none none none
          (some "/tmp/o.blend") (some "/tmp/o.png")).trace) :=
  ⟨by decide, rfl,
   save_open_failure_aborts envFail "a.fbx" none none none none
     (some "/tmp/o.blend") (some "/tmp/o.png") (by decide) rfl⟩

/-- C9: the framing step saves the camera lens angle, scales it for the
`camera_to_view_selected` call, and restores it afterwards, so it leaves
the camera data angle unchanged; consequently after a full `render` run
the camera angle is still the host default it had at creation. -/
theorem framing_preserves_camera_angle (s : St) (env : Env)
    (fbx_path : String) (hdr_path : Option String)
    (size_x size_y samples : Option Int)
    (save_path render_path : Option String) :
    Option.map CamState.angle (framePhase s).1.cam
      = Option.map CamState.angle s.cam
    ∧ ∃ c, (render env fbx_path hdr_path size_x size_y samples save_path
        render_path).state.cam = some c ∧ c.angle = HF.camAngleDefault := by
  constructor
  · exact framePhase_angle_eq s
  · rw [render_state_eq, hdrPhase_cam_eq]
    simp [framePhase, importPhase, cameraPhase]

/-- C10: a zero `--width`, `--height` or `--samples`, and an empty
`--render` path, behave exactly like the omitted flag: the run is
identical. -/
theorem zero_flags_like_omitted (env : Env) (fbx_path : String)
    (hdr_path : Option String) (size_x size_y samples : Option Int)
    (save_path render_path : Option String) :
    render env fbx_path hdr_path (some 0) size_y samples save_path
        render_path
      = render env fbx_path hdr_path none size_y samples save_path
        render_path
    ∧ render env fbx_path hdr_path size_x (some 0) samples save_path
        render_path
      = render env fbx_path hdr_path size_x none samples save_path
        render_path
    ∧ render env fbx_path hdr_path size_x size_y (some 0) save_path
        render_path
      = render env fbx_path hdr_path size_x size_y none save_path
        render_path
    ∧ render env fbx_path hdr_path size_x size_y samples save_path
        (some "")
      = render env fbx_path hdr_path size_x size_y samples save_path
        none := by
  refine ⟨?_, ?_, ?_, ?_⟩ <;> rfl

end PyFbxRender
